import Mathlib

/-!
Verification development for the AutoMentor repository (a RAG assistant:
document ingestion into a FAISS vector index, retrieval, and conversational
answering over an HTTP API).

The Python sources are shallowly embedded below. External library calls
(FAISS, the HuggingFace embedding service, the Ollama language model, the
per-file document loaders) are modelled as explicit function parameters or as
definitions that follow their documented behaviour; each such definition says
so in its doc comment. Machine-level concerns (actual vector arithmetic,
on-disk file formats) are abstracted: an embedding is a list of integers
produced by an opaque embedding function keyed by the model name, and the
persisted FAISS index at the configured path is an Option value (none means
the index files do not exist).
-/

namespace AutoMentor

/-- Embedding of the langchain Document value as used by this repository:
page content plus its source metadata. -/
structure Document where
  pageContent : String
  source : String
deriving DecidableEq, Repr

/-- Embedding of HuggingFaceEmbeddings: the only datum the repository code
passes to it is the model name (config.EMBEDDINGS_MODEL). -/
structure HuggingFaceEmbeddings where
  model_name : String
deriving DecidableEq, Repr

/-- One entry of the FAISS store: an embedding vector paired with its chunk.
(Spec section 3: every entry has exactly one embedding and one chunk.) -/
structure IndexEntry where
  vector : List Int
  chunk : Document
deriving DecidableEq, Repr

/-- Embedding of the persisted FAISS vector store: the sequence of
(vector, chunk) entries it holds. -/
structure FaissIndex where
  entries : List IndexEntry
deriving DecidableEq, Repr

/-- Embedding of src/AutoMentor/config.py: the configuration surface read by
the ingestion and query code. -/
structure Config where
  embeddingsModel : String
  ollamaModel : String
  chunkSize : Nat
  chunkOverlap : Nat
  faissIndexPath : String
deriving DecidableEq, Repr

/-- The concrete values of src/AutoMentor/config.py lines 9-19. -/
def config : Config :=
  { embeddingsModel := "sentence-transformers/all-MiniLM-L6-v2"
    ollamaModel := "llama3:latest"
    chunkSize := 1000
    chunkOverlap := 100
    faissIndexPath := "data/vector_store/faiss_index" }

/-- An embedding service: given a model name and a text, produce a vector.
This stands for the opaque external HuggingFace sentence-embedding model; the
model name argument records which model identifier the caller instantiated. -/
def EmbedFn : Type := String → String → List Int

/-- Modelled from the spec (section 4.2): the external recursive character
splitter is library code not under src/. The spec describes it as producing
overlapping fixed-size windows (chunk_size characters, consecutive chunks
sharing chunk_overlap characters), deterministically, with structural-boundary
preference as a refinement of where the cut lands; we model the windowing.
A step of at least one character is forced so the recursion terminates even
for degenerate parameters (the real library rejects overlap >= size at
construction time). -/
def splitOneText (chunk_size chunk_overlap : Nat) (text : List Char) : List (List Char) :=
  if text.length ≤ chunk_size then [text]
  else
    text.take chunk_size ::
      splitOneText chunk_size chunk_overlap (text.drop (max 1 (chunk_size - chunk_overlap)))
termination_by text.length
decreasing_by
  simp only [List.length_drop]
  omega

/-- Embedding of split_text_into_chunks
(src/AutoMentor/core/ingestion/document_loader.py lines 21-29): split every
document with the recursive character splitter; each chunk carries the parent
metadata unchanged (the behaviour of split_documents). -/
def split_text_into_chunks (documents : List Document) (chunk_size chunk_overlap : Nat) :
    List Document :=
  documents.flatMap fun d =>
    (splitOneText chunk_size chunk_overlap d.pageContent.toList).map fun cs =>
      { pageContent := String.mk cs, source := d.source }

/-- Embedding of FAISS.from_documents as called by the repository: build a
store holding exactly one (vector, chunk) entry per input chunk, the vector
computed by the embedding service under the model name carried by the
embeddings object. -/
def FaissIndex.fromDocuments (embedFn : EmbedFn) (embeddings : HuggingFaceEmbeddings)
    (chunks : List Document) : FaissIndex :=
  { entries := chunks.map fun c => { vector := embedFn embeddings.model_name c.pageContent, chunk := c } }

/-- Embedding of create_and_save_embeddings
(src/AutoMentor/core/ingestion/embedder.py lines 6-12, identical in
src/AutoMentor/core/ingestion.py lines 34-38): instantiate the embedding
model from config.EMBEDDINGS_MODEL, build a FRESH store from the given chunks
only with FAISS.from_documents, and save_local it at the index path,
replacing whatever was stored there. The prior contents of the path
(priorAtPath) are never read or merged. -/
def create_and_save_embeddings (cfg : Config) (embedFn : EmbedFn) (chunks : List Document)
    (priorAtPath : Option FaissIndex) : Option FaissIndex :=
  let embeddings : HuggingFaceEmbeddings := { model_name := cfg.embeddingsModel }
  let vector_store := FaissIndex.fromDocuments embedFn embeddings chunks
  some vector_store

/-- Embedding of the RAG chain value built by load_rag_chain
(src/AutoMentor/core/rag.py): the embedding model, the loaded vector store,
the retriever k, the Ollama model name, and the conversational buffer memory
(the ordered question/answer pairs of the session). -/
structure RAGChain where
  embeddings : HuggingFaceEmbeddings
  vector_store : FaissIndex
  retrieverK : Nat
  llmModel : String
  memory : List (String × String)
deriving DecidableEq, Repr

/-- Embedding of load_rag_chain (src/AutoMentor/core/rag.py lines 9-55):
instantiate HuggingFaceEmbeddings from config.EMBEDDINGS_MODEL (line 13);
if the index path does not exist, raise FileNotFoundError (lines 16-17);
otherwise load the store and build a chain with retriever k = 5 (line 20,
a literal in the source), the configured Ollama model, and a fresh empty
conversation memory (lines 26-29). -/
def load_rag_chain (cfg : Config) (indexAtPath : Option FaissIndex) : Except String RAGChain :=
  let embeddings : HuggingFaceEmbeddings := { model_name := cfg.embeddingsModel }
  match indexAtPath with
  | none =>
      Except.error ("FAISS index not found at " ++ cfg.faissIndexPath ++
        ". Please run the ingestion script first.")
  | some vector_store =>
      Except.ok
        { embeddings := embeddings
          vector_store := vector_store
          retrieverK := 5
          llmModel := cfg.ollamaModel
          memory := [] }

/-- The vector the chain embeds a query with: the embedding service applied
under the model name the chain was constructed with (rag.py line 13). -/
def queryVector (embedFn : EmbedFn) (chain : RAGChain) (q : String) : List Int :=
  embedFn chain.embeddings.model_name q

/-- Modelled from the spec (section 4.4): FAISS similarity search is library
code not under src/. Each stored entry is scored by its vector distance to
the query vector; dist is the opaque distance function of the index. -/
def scoredEntries (dist : List Int → List Int → Nat) (embedFn : EmbedFn) (chain : RAGChain)
    (q : String) : List (Nat × Document) :=
  chain.vector_store.entries.map fun e => (dist (queryVector embedFn chain q) e.vector, e.chunk)

/-- The comparison under which retrieval ranks scored chunks: ascending
distance. -/
def distLE (a b : Nat × Document) : Bool := Nat.ble a.1 b.1

/-- Modelled from the spec (section 4.4): the retriever ranks all entries by
ascending distance. -/
def rankedEntries (dist : List Int → List Int → Nat) (embedFn : EmbedFn) (chain : RAGChain)
    (q : String) : List (Nat × Document) :=
  (scoredEntries dist embedFn chain q).mergeSort distLE

/-- Modelled from the spec (section 4.4): the retriever returns the top-k of
the distance-ranked entries, k being the value wired into the chain by
vector_store.as_retriever (rag.py line 20), scores included. -/
def retrieveWithScores (dist : List Int → List Int → Nat) (embedFn : EmbedFn) (chain : RAGChain)
    (q : String) : List (Nat × Document) :=
  (rankedEntries dist embedFn chain q).take chain.retrieverK

/-- The retrieved chunks themselves, in rank order. -/
def retrieve (dist : List Int → List Int → Nat) (embedFn : EmbedFn) (chain : RAGChain)
    (q : String) : List Document :=
  (retrieveWithScores dist embedFn chain q).map Prod.snd

/-- Embedding of the prompt construction of rag.py lines 32-44: the fixed
instruction template with the retrieved context and the question substituted
for its two input variables. -/
def buildPrompt (docs : List Document) (question : String) : String :=
  "You are AutoMentor, a knowledgeable and precise automotive AI assistant. " ++
  "Use the following pieces of context to answer the question. " ++
  "If the answer is not in the context, state that there is not enough information. " ++
  "Context: " ++ String.intercalate "\n\n" (docs.map Document.pageContent) ++
  "\nQuestion: " ++ question ++ "\nAnswer:"

/-- A language model call: model name and prompt to either an answer or a
failure. This stands for the opaque external Ollama runtime. -/
def LlmFn : Type := String → String → Except String String

/-- Embedding of chain.invoke on the ConversationalRetrievalChain built in
rag.py: retrieve the top-k chunks, build the prompt, call the language model;
on success append the new (question, answer) pair to the buffer memory, on
failure propagate the exception with the memory and the chain untouched
(langchain saves context only after a successful call). -/
def RAGChain.invoke (dist : List Int → List Int → Nat) (embedFn : EmbedFn) (llm : LlmFn)
    (chain : RAGChain) (question : String) : Except String (String × RAGChain) :=
  let docs := retrieve dist embedFn chain question
  match llm chain.llmModel (buildPrompt docs question) with
  | Except.error e => Except.error e
  | Except.ok answer =>
      Except.ok (answer, { chain with memory := chain.memory ++ [(question, answer)] })

/-- Embedding of the API server process state (src/AutoMentor/api/server.py):
the persisted FAISS index files at config.FAISS_INDEX_PATH, and the global
rag_chain variable (line 24). -/
structure ServerState where
  indexFiles : Option FaissIndex
  rag_chain : Option RAGChain
deriving DecidableEq, Repr

/-- Outcome of the /query endpoint: the answer, or an HTTPException with its
status code and detail. -/
inductive QueryOutcome where
  | answer (a : String)
  | httpError (status : Nat) (detail : String)
deriving DecidableEq, Repr

/-- Embedding of query_automotive (src/AutoMentor/api/server.py lines 50-66):
503 when the global rag_chain is None (lines 55-56); otherwise invoke the
chain, returning the answer on success and a generic 500 on any exception
(lines 58-66), the global chain variable left pointing at the same chain. -/
def query_automotive (dist : List Int → List Int → Nat) (embedFn : EmbedFn) (llm : LlmFn)
    (st : ServerState) (question : String) : QueryOutcome × ServerState :=
  match st.rag_chain with
  | none =>
      (QueryOutcome.httpError 503 "AutoMentor is not initialized. Please check server logs.", st)
  | some chain =>
      match RAGChain.invoke dist embedFn llm chain question with
      | Except.ok (ans, chain2) =>
          (QueryOutcome.answer ans, { st with rag_chain := some chain2 })
      | Except.error _ =>
          (QueryOutcome.httpError 500 "An error occurred while processing your query.", st)

/-- Response of the /health endpoint (src/AutoMentor/api/server.py lines
68-70). -/
structure HealthResponse where
  status : String
  automentorInitialized : Bool
deriving DecidableEq, Repr

/-- Embedding of health_check (src/AutoMentor/api/server.py lines 68-70):
report status ok and whether the global rag_chain is loaded; the state is
only read. -/
def health_check (st : ServerState) : HealthResponse × ServerState :=
  ({ status := "ok", automentorInitialized := st.rag_chain.isSome }, st)

/-- An uploaded file of a /ingest request: its client-supplied filename and
its raw content. -/
structure UploadFile where
  filename : String
  content : String
deriving DecidableEq, Repr

/-- Embedding of pathlib Path(name).suffix: the substring from the last dot
onwards, provided that dot is neither the first nor the last character;
otherwise the empty string. -/
def pathSuffix (name : String) : String :=
  let cs := name.toList
  match (cs.reverse.findIdx? fun c => c = '.').map (fun k => cs.length - 1 - k) with
  | some i => if 0 < i ∧ i < cs.length - 1 then String.mk (cs.drop i) else ""
  | none => ""

/-- The extensions the /ingest endpoint accepts
(src/AutoMentor/api/server.py line 91). -/
def allowedExtensions : List String := [".pdf", ".txt", ".csv"]

/-- Embedding of str.lower restricted to ASCII, the alphabet of the
extension literals it is compared against. -/
def lowercase (s : String) : String :=
  String.mk (s.toList.map Char.toLower)

/-- The extension check of server.py lines 90-91: lower-cased suffix among
the allowed extensions. -/
def isSupportedUpload (f : UploadFile) : Bool :=
  allowedExtensions.contains (lowercase (pathSuffix f.filename))

/-- Gathering of server.py lines 106-122: each saved file is loaded inside a
per-file try/except, so a file whose loader raises contributes nothing and
the loop continues with the next file. loadFile stands for the external
per-extension document loaders (PyPDFLoader, CSVLoader, TextLoader). -/
def gatherDocuments (loadFile : UploadFile → Except String (List Document))
    (files : List UploadFile) : List Document :=
  files.flatMap fun f =>
    match loadFile f with
    | Except.ok ds => ds
    | Except.error _ => []

/-- Outcome of the /ingest endpoint: the success payload of server.py lines
154-158, or an HTTPException. -/
inductive IngestOutcome where
  | ok (message : String) (filesProcessed : List String) (totalChunks : Nat)
  | httpError (status : Nat) (detail : String)
deriving DecidableEq, Repr

/-- Embedding of ingest_documents (src/AutoMentor/api/server.py lines
72-164). Empty batch: 400 (lines 78-79). The save loop raises an
HTTPException at the FIRST file whose extension is unsupported (lines 89-95);
that exception is re-raised unchanged by the handler at lines 160-161, so the
whole request ends there with nothing ingested and the temporary directory
discarded. Otherwise the saved files are loaded with per-file error skipping,
a 400 is raised when zero documents result (lines 124-125), and else the
documents are chunked, a fresh index is written over the configured path, and
the global rag_chain is reloaded from it (lines 129-158). Should that reload
raise, the generic handler answers 500 with the index already rewritten and
the global chain variable unchanged (lines 162-164). -/
def ingest_documents (cfg : Config) (embedFn : EmbedFn)
    (loadFile : UploadFile → Except String (List Document)) (st : ServerState)
    (files : List UploadFile) : IngestOutcome × ServerState :=
  if files.isEmpty then
    (IngestOutcome.httpError 400 "No files provided.", st)
  else
    match files.find? (fun f => !isSupportedUpload f) with
    | some f =>
        (IngestOutcome.httpError 400
          ("Unsupported file type: " ++ f.filename ++ ". Only PDF, TXT, and CSV are allowed."), st)
    | none =>
        let documents := gatherDocuments loadFile files
        if documents.isEmpty then
          (IngestOutcome.httpError 400
            "No valid documents could be loaded from the uploaded files.", st)
        else
          let chunks := split_text_into_chunks documents cfg.chunkSize cfg.chunkOverlap
          let newIndex := create_and_save_embeddings cfg embedFn chunks st.indexFiles
          match load_rag_chain cfg newIndex with
          | Except.ok chain =>
              (IngestOutcome.ok
                ("Successfully ingested " ++ toString files.length ++ " file(s) with " ++
                  toString chunks.length ++ " chunks.")
                (files.map UploadFile.filename) chunks.length,
               { indexFiles := newIndex, rag_chain := some chain })
          | Except.error e =>
              (IngestOutcome.httpError 500 ("An error occurred during ingestion: " ++ e),
               { indexFiles := newIndex, rag_chain := st.rag_chain })

/-- Modelled external behaviour: langchain DirectoryLoader.load with its
default silent_errors=False re-raises the first per-file loading failure
instead of skipping it; on an all-success run it returns the concatenation of
the per-file document lists. results holds the per-file outcomes of one
globbed loader in scan order. -/
def directoryLoaderLoad : List (Except String (List Document)) →
    Except String (List Document)
  | [] => Except.ok []
  | Except.error e :: _ => Except.error e
  | Except.ok ds :: rest =>
      match directoryLoaderLoad rest with
      | Except.error e => Except.error e
      | Except.ok acc => Except.ok (ds ++ acc)

/-- Embedding of load_documents
(src/AutoMentor/core/ingestion/document_loader.py lines 5-19): three
DirectoryLoader passes (pdf, csv, txt globs) whose results are concatenated;
there is no try/except around any of them, so a failure inside one pass
propagates out of load_documents. Each argument holds that pass,
per-file outcomes in scan order. -/
def load_documents (pdfResults csvResults txtResults : List (Except String (List Document))) :
    Except String (List Document) := do
  let a ← directoryLoaderLoad pdfResults
  let b ← directoryLoaderLoad csvResults
  let c ← directoryLoaderLoad txtResults
  return a ++ b ++ c

/-- Outcome of one CLI ingestion run. -/
inductive CliIngestOutcome where
  | noDocuments
  | completed (nDocs nChunks : Nat)
  | crashed (msg : String)
deriving DecidableEq, Repr

/-- Embedding of the ingest command (src/AutoMentor/main.py lines 13-38):
load from the source directory (an uncaught loading failure propagates and
the run crashes before any write); if zero documents were loaded, print the
no-documents message and return before chunking, embedding or writing (lines
24-26); otherwise chunk, embed and write the index. loadResult is the
outcome of the load_documents call. -/
def mainIngest (cfg : Config) (embedFn : EmbedFn) (loadResult : Except String (List Document))
    (indexAtPath : Option FaissIndex) : CliIngestOutcome × Option FaissIndex :=
  match loadResult with
  | Except.error e => (CliIngestOutcome.crashed e, indexAtPath)
  | Except.ok documents =>
      if documents.isEmpty then
        (CliIngestOutcome.noDocuments, indexAtPath)
      else
        let chunks := split_text_into_chunks documents cfg.chunkSize cfg.chunkOverlap
        (CliIngestOutcome.completed documents.length chunks.length,
         create_and_save_embeddings cfg embedFn chunks indexAtPath)

/-- Embedding of run_ingestion_pipeline (src/AutoMentor/core/ingestion.py
lines 40-61): the same shape as the CLI command — return before any write
when zero documents were loaded (lines 47-49), else chunk, embed and save. -/
def run_ingestion_pipeline (cfg : Config) (embedFn : EmbedFn)
    (loadResult : Except String (List Document)) (indexAtPath : Option FaissIndex) :
    CliIngestOutcome × Option FaissIndex :=
  match loadResult with
  | Except.error e => (CliIngestOutcome.crashed e, indexAtPath)
  | Except.ok documents =>
      if documents.isEmpty then
        (CliIngestOutcome.noDocuments, indexAtPath)
      else
        let chunks := split_text_into_chunks documents cfg.chunkSize cfg.chunkOverlap
        (CliIngestOutcome.completed documents.length chunks.length,
         create_and_save_embeddings cfg embedFn chunks indexAtPath)

/-- One request an API client can make of the server. -/
inductive ApiRequest where
  | queryReq (q : String)
  | healthReq
  | ingestReq (files : List UploadFile)
deriving DecidableEq, Repr

/-- Whether a request is one of the two read-only endpoints. -/
def isReadOnly : ApiRequest → Bool
  | ApiRequest.queryReq _ => true
  | ApiRequest.healthReq => true
  | ApiRequest.ingestReq _ => false

/-- The state transition of one request against the server. -/
def serverStep (cfg : Config) (dist : List Int → List Int → Nat) (embedFn : EmbedFn)
    (llm : LlmFn) (loadFile : UploadFile → Except String (List Document))
    (st : ServerState) : ApiRequest → ServerState
  | ApiRequest.queryReq q => (query_automotive dist embedFn llm st q).2
  | ApiRequest.healthReq => (health_check st).2
  | ApiRequest.ingestReq files => (ingest_documents cfg embedFn loadFile st files).2

/-- The state after a sequence of requests. -/
def runRequests (cfg : Config) (dist : List Int → List Int → Nat) (embedFn : EmbedFn)
    (llm : LlmFn) (loadFile : UploadFile → Except String (List Document))
    (st : ServerState) : List ApiRequest → ServerState
  | [] => st
  | r :: rs => runRequests cfg dist embedFn llm loadFile (serverStep cfg dist embedFn llm loadFile st r) rs

/-! Theorems. -/

/-- C1, counterexample. The claim says an existing index at the target path
is extended: the persisted result holds the previous entries plus one entry
per new chunk. At the concrete input below — an existing index with one
entry, one new chunk — create_and_save_embeddings persists an index holding
only the new chunk entry, and the previously stored entry is not among the
persisted entries, refuting the append mode. -/
theorem C1_counterexample :
    create_and_save_embeddings config (fun _ s => [(s.length : Int)])
        [{ pageContent := "new", source := "n.txt" }]
        (some { entries := [{ vector := [0],
                              chunk := { pageContent := "old", source := "o.txt" } }] })
      = some { entries := [{ vector := [3],
                             chunk := { pageContent := "new", source := "n.txt" } }] }
    ∧ ({ vector := [0], chunk := { pageContent := "old", source := "o.txt" } } : IndexEntry)
        ∉ ([{ vector := [3], chunk := { pageContent := "new", source := "n.txt" } }] :
            List IndexEntry) := by
  exact ⟨rfl, by decide⟩

/-- C1, amended. create_and_save_embeddings always persists a fresh index
holding exactly one entry per chunk of the call, in order: when an index
already exists at the target path it is overwritten and its previous entries
are discarded (the prior contents are never read, so the result does not
depend on them); when no index exists, the same fresh index is created. -/
theorem C1_overwrite_semantics (cfg : Config) (embedFn : EmbedFn) (chunks : List Document)
    (prior : Option FaissIndex) (hne : chunks ≠ []) :
    create_and_save_embeddings cfg embedFn chunks prior
      = some { entries := chunks.map fun c =>
          { vector := embedFn cfg.embeddingsModel c.pageContent, chunk := c } }
    ∧ create_and_save_embeddings cfg embedFn chunks prior
      = create_and_save_embeddings cfg embedFn chunks none := by
  exact ⟨rfl, rfl⟩

/-- C1, witness for the amended theorem. -/
theorem C1_overwrite_semantics_witness :
    create_and_save_embeddings config (fun _ s => [(s.length : Int)])
        [{ pageContent := "a", source := "a.txt" }] (some { entries := [] })
      = some { entries := [{ pageContent := "a", source := "a.txt" }].map fun c =>
          { vector := (fun _ s => [(s.length : Int)] : EmbedFn) config.embeddingsModel c.pageContent,
            chunk := c } }
    ∧ create_and_save_embeddings config (fun _ s => [(s.length : Int)])
        [{ pageContent := "a", source := "a.txt" }] (some { entries := [] })
      = create_and_save_embeddings config (fun _ s => [(s.length : Int)])
        [{ pageContent := "a", source := "a.txt" }] none :=
  C1_overwrite_semantics config (fun _ s => [(s.length : Int)])
    [{ pageContent := "a", source := "a.txt" }] (some { entries := [] }) (by decide)

/-- C2, counterexample. The claim says that when a batch holds one file of an
unsupported extension, that file is rejected with an error identifying it
while the other, supported files of the batch are still ingested. At the
concrete input below — a batch of good.txt and bad.exe against an empty
server — the request is indeed rejected with a 400 naming bad.exe, but the
server state is returned unchanged: the persisted index stays absent, so
good.txt was not ingested; the rejection aborts the whole batch. -/
theorem C2_counterexample :
    ingest_documents config (fun _ s => [(s.length : Int)])
        (fun f => Except.ok [{ pageContent := f.content, source := f.filename }])
        { indexFiles := none, rag_chain := none }
        [{ filename := "good.txt", content := "tire pressure is 32 psi" },
         { filename := "bad.exe", content := "binary" }]
      = (IngestOutcome.httpError 400
           "Unsupported file type: bad.exe. Only PDF, TXT, and CSV are allowed.",
         { indexFiles := none, rag_chain := none })
    ∧ (ingest_documents config (fun _ s => [(s.length : Int)])
        (fun f => Except.ok [{ pageContent := f.content, source := f.filename }])
        { indexFiles := none, rag_chain := none }
        [{ filename := "good.txt", content := "tire pressure is 32 psi" },
         { filename := "bad.exe", content := "binary" }]).2.indexFiles = none := by
  exact ⟨rfl, rfl⟩

/-- C2, amended. A non-empty batch holding a file of unsupported extension is
rejected with a 400 error identifying the first such filename, and the
rejection aborts the whole request: no file of the batch is ingested and the
server state (persisted index and loaded chain) is returned unchanged. -/
theorem C2_reject_aborts_batch (cfg : Config) (embedFn : EmbedFn)
    (loadFile : UploadFile → Except String (List Document)) (st : ServerState)
    (files : List UploadFile) (f : UploadFile)
    (hne : files ≠ [])
    (hfind : files.find? (fun g => !isSupportedUpload g) = some f) :
    ingest_documents cfg embedFn loadFile st files
      = (IngestOutcome.httpError 400
          ("Unsupported file type: " ++ f.filename ++ ". Only PDF, TXT, and CSV are allowed."),
         st) := by
  have h1 : files.isEmpty = false := by
    rcases files with _ | ⟨x, xs⟩
    · exact absurd rfl hne
    · rfl
  simp only [ingest_documents, h1, hfind, Bool.false_eq_true, if_false]

/-- C2, witness for the amended theorem. -/
theorem C2_reject_aborts_batch_witness :
    ingest_documents config (fun _ s => [(s.length : Int)])
        (fun f => Except.ok [{ pageContent := f.content, source := f.filename }])
        { indexFiles := none, rag_chain := none }
        [{ filename := "good.txt", content := "tire" },
         { filename := "bad.exe", content := "binary" }]
      = (IngestOutcome.httpError 400
          ("Unsupported file type: " ++ "bad.exe" ++ ". Only PDF, TXT, and CSV are allowed."),
         { indexFiles := none, rag_chain := none }) :=
  C2_reject_aborts_batch config (fun _ s => [(s.length : Int)])
    (fun f => Except.ok [{ pageContent := f.content, source := f.filename }])
    { indexFiles := none, rag_chain := none }
    [{ filename := "good.txt", content := "tire" },
     { filename := "bad.exe", content := "binary" }]
    { filename := "bad.exe", content := "binary" }
    (by decide) (by decide)

/-- C3. Before any successful ingestion the pipeline is not initialized and a
query is answered with a "not initialized" error rather than a crash or an
empty answer: the /query endpoint returns 503 with the not-initialized detail
whenever the global rag_chain is unloaded, leaving the state untouched, and
load_rag_chain on an absent index path fails with the missing-index
FileNotFoundError message instead of constructing a chain. -/
theorem C3_not_initialized (cfg : Config) (dist : List Int → List Int → Nat)
    (embedFn : EmbedFn) (llm : LlmFn) (st : ServerState) (q : String)
    (h : st.rag_chain = none) :
    query_automotive dist embedFn llm st q
      = (QueryOutcome.httpError 503 "AutoMentor is not initialized. Please check server logs.",
         st)
    ∧ load_rag_chain cfg none
      = Except.error ("FAISS index not found at " ++ cfg.faissIndexPath ++
          ". Please run the ingestion script first.") := by
  refine ⟨?_, rfl⟩
  unfold query_automotive
  rw [h]

/-- C3, witness. -/
theorem C3_not_initialized_witness :
    query_automotive (fun _ _ => 0) (fun _ s => [(s.length : Int)]) (fun _ _ => Except.ok "a")
        { indexFiles := none, rag_chain := none } "what is the tire pressure"
      = (QueryOutcome.httpError 503 "AutoMentor is not initialized. Please check server logs.",
         { indexFiles := none, rag_chain := none })
    ∧ load_rag_chain config none
      = Except.error ("FAISS index not found at " ++ config.faissIndexPath ++
          ". Please run the ingestion script first.") :=
  C3_not_initialized config (fun _ _ => 0) (fun _ s => [(s.length : Int)])
    (fun _ _ => Except.ok "a") { indexFiles := none, rag_chain := none }
    "what is the tire pressure" rfl

/-- Helper: when every file of the batch loads to an empty document list,
the upload path gathers no documents. -/
theorem gatherDocuments_eq_nil (loadFile : UploadFile → Except String (List Document))
    (files : List UploadFile) (h : ∀ f ∈ files, loadFile f = Except.ok []) :
    gatherDocuments loadFile files = [] := by
  induction files with
  | nil => rfl
  | cons f fs ih =>
      have hf := h f (by simp)
      have hfs := ih fun x hx => h x (by simp [hx])
      simp only [gatherDocuments, List.flatMap_cons, hf] at *
      simpa using hfs

/-- C4. An ingestion run whose loading step yields zero documents aborts
with an explicit report before chunking, embedding or writing, and the
persisted index at the target path is left exactly as it was: the CLI
command and the library pipeline return their no-documents report with the
index unchanged, and the upload endpoint answers 400 with the no-valid-
documents detail and an unchanged server state. -/
theorem C4_zero_documents (cfg : Config) (embedFn : EmbedFn)
    (loadFile : UploadFile → Except String (List Document)) (idx : Option FaissIndex)
    (st : ServerState) (files : List UploadFile)
    (hne : files ≠ [])
    (hsup : ∀ f ∈ files, isSupportedUpload f = true)
    (hempty : ∀ f ∈ files, loadFile f = Except.ok []) :
    mainIngest cfg embedFn (Except.ok []) idx = (CliIngestOutcome.noDocuments, idx)
    ∧ run_ingestion_pipeline cfg embedFn (Except.ok []) idx = (CliIngestOutcome.noDocuments, idx)
    ∧ ingest_documents cfg embedFn loadFile st files
        = (IngestOutcome.httpError 400
            "No valid documents could be loaded from the uploaded files.", st) := by
  refine ⟨rfl, rfl, ?_⟩
  have h1 : files.isEmpty = false := by
    rcases files with _ | ⟨x, xs⟩
    · exact absurd rfl hne
    · rfl
  have h2 : files.find? (fun f => !isSupportedUpload f) = none :=
    List.find?_eq_none.mpr fun x hx => by simp [hsup x hx]
  have h3 := gatherDocuments_eq_nil loadFile files hempty
  simp only [ingest_documents, h1, h2, h3, Bool.false_eq_true, if_false, List.isEmpty_nil,
    if_true]

/-- C4, witness. -/
theorem C4_zero_documents_witness :
    mainIngest config (fun _ s => [(s.length : Int)]) (Except.ok []) (some { entries := [] })
      = (CliIngestOutcome.noDocuments, some { entries := [] })
    ∧ run_ingestion_pipeline config (fun _ s => [(s.length : Int)]) (Except.ok [])
        (some { entries := [] })
      = (CliIngestOutcome.noDocuments, some { entries := [] })
    ∧ ingest_documents config (fun _ s => [(s.length : Int)]) (fun _ => Except.ok [])
        { indexFiles := some { entries := [] }, rag_chain := none }
        [{ filename := "empty.txt", content := "" }]
      = (IngestOutcome.httpError 400
          "No valid documents could be loaded from the uploaded files.",
         { indexFiles := some { entries := [] }, rag_chain := none }) :=
  C4_zero_documents config (fun _ s => [(s.length : Int)]) (fun _ => Except.ok [])
    (some { entries := [] }) { indexFiles := some { entries := [] }, rag_chain := none }
    [{ filename := "empty.txt", content := "" }]
    (by decide) (by decide) (fun _ _ => rfl)

/-- C6. Chunking is deterministic: for the same document sequence and the
same chunk_size and chunk_overlap parameters with overlap below size, two
runs of split_text_into_chunks produce identical chunk sequences — the
splitter is a pure function of its inputs, with no source of randomness. -/
theorem C6_chunking_deterministic (docs1 docs2 : List Document) (cs1 cs2 co1 co2 : Nat)
    (hdocs : docs1 = docs2) (hsize : cs1 = cs2) (hover : co1 = co2) (hlt : co1 < cs1) :
    split_text_into_chunks docs1 cs1 co1 = split_text_into_chunks docs2 cs2 co2 := by
  subst hdocs
  subst hsize
  subst hover
  rfl

/-- C6, witness. -/
theorem C6_chunking_deterministic_witness :
    split_text_into_chunks
        [{ pageContent := "tire pressure should be 32 psi", source := "t.txt" }] 10 2
      = split_text_into_chunks
        [{ pageContent := "tire pressure should be 32 psi", source := "t.txt" }] 10 2 :=
  C6_chunking_deterministic
    [{ pageContent := "tire pressure should be 32 psi", source := "t.txt" }]
    [{ pageContent := "tire pressure should be 32 psi", source := "t.txt" }]
    10 10 2 2 rfl rfl rfl (by decide)

/-- C8. When the answer-generator call of a query turn fails, the turn is
reported to the caller as a generic 500 failure and the server state is
returned exactly as it was: the conversation memory and the live chain are
untouched, the chain instance is not discarded, and a later turn of the same
session whose generator call succeeds is answered normally, appending its
own question/answer pair to the memory. -/
theorem C8_generator_failure (dist : List Int → List Int → Nat) (embedFn : EmbedFn)
    (llm llm2 : LlmFn) (st : ServerState) (chain : RAGChain) (q q2 e a : String)
    (hc : st.rag_chain = some chain)
    (hfail : llm chain.llmModel (buildPrompt (retrieve dist embedFn chain q) q)
      = Except.error e)
    (hok : llm2 chain.llmModel (buildPrompt (retrieve dist embedFn chain q2) q2)
      = Except.ok a) :
    query_automotive dist embedFn llm st q
      = (QueryOutcome.httpError 500 "An error occurred while processing your query.", st)
    ∧ query_automotive dist embedFn llm2 st q2
      = (QueryOutcome.answer a,
         { st with rag_chain := some { chain with memory := chain.memory ++ [(q2, a)] } }) := by
  constructor
  · simp only [query_automotive, hc, RAGChain.invoke, hfail]
  · simp only [query_automotive, hc, RAGChain.invoke, hok]

/-- C8, witness. -/
theorem C8_generator_failure_witness :
    query_automotive (fun _ _ => 0) (fun _ s => [(s.length : Int)]) (fun _ _ => Except.error "boom")
        ⟨some ⟨[]⟩, some ⟨⟨"m"⟩, ⟨[]⟩, 5, "llama", []⟩⟩ "q1"
      = (QueryOutcome.httpError 500 "An error occurred while processing your query.",
         ⟨some ⟨[]⟩, some ⟨⟨"m"⟩, ⟨[]⟩, 5, "llama", []⟩⟩)
    ∧ query_automotive (fun _ _ => 0) (fun _ s => [(s.length : Int)]) (fun _ _ => Except.ok "ans")
        ⟨some ⟨[]⟩, some ⟨⟨"m"⟩, ⟨[]⟩, 5, "llama", []⟩⟩ "q2"
      = (QueryOutcome.answer "ans",
         ⟨some ⟨[]⟩, some ⟨⟨"m"⟩, ⟨[]⟩, 5, "llama", [("q2", "ans")]⟩⟩) :=
  C8_generator_failure (fun _ _ => 0) (fun _ s => [(s.length : Int)])
    (fun _ _ => Except.error "boom") (fun _ _ => Except.ok "ans")
    ⟨some ⟨[]⟩, some ⟨⟨"m"⟩, ⟨[]⟩, 5, "llama", []⟩⟩
    ⟨⟨"m"⟩, ⟨[]⟩, 5, "llama", []⟩
    "q1" "q2" "boom" "ans" rfl rfl rfl

/-- C9. Queries are embedded with the same embedding model identifier as was
used at ingestion time: the index writer instantiates the embedding service
with the single configured model name, so every persisted vector was
computed under it, and the chain loaded from that index carries the same
configured name and embeds every query under it. -/
theorem C9_same_embedding_model (cfg : Config) (embedFn : EmbedFn) (chunks : List Document)
    (prior : Option FaissIndex) (idx : FaissIndex) (chain : RAGChain)
    (hw : create_and_save_embeddings cfg embedFn chunks prior = some idx)
    (hl : load_rag_chain cfg (some idx) = Except.ok chain) :
    chain.embeddings.model_name = cfg.embeddingsModel
    ∧ idx.entries.map IndexEntry.vector
        = chunks.map (fun c => embedFn cfg.embeddingsModel c.pageContent)
    ∧ ∀ q, queryVector embedFn chain q = embedFn cfg.embeddingsModel q := by
  have hidx : idx
      = FaissIndex.fromDocuments embedFn { model_name := cfg.embeddingsModel } chunks := by
    simpa [create_and_save_embeddings] using hw.symm
  have hchain : chain
      = { embeddings := { model_name := cfg.embeddingsModel },
          vector_store := idx, retrieverK := 5, llmModel := cfg.ollamaModel,
          memory := [] } := by
    simpa [load_rag_chain] using hl.symm
  subst hchain
  subst hidx
  refine ⟨rfl, ?_, fun q => rfl⟩
  simp [FaissIndex.fromDocuments, List.map_map]

/-- C9, witness. -/
theorem C9_same_embedding_model_witness :
    (⟨⟨config.embeddingsModel⟩, ⟨[⟨[1], ⟨"a", "a.txt"⟩⟩]⟩, 5, config.ollamaModel, []⟩ :
        RAGChain).embeddings.model_name = config.embeddingsModel
    ∧ (⟨[⟨[1], ⟨"a", "a.txt"⟩⟩]⟩ : FaissIndex).entries.map IndexEntry.vector
        = [(⟨"a", "a.txt"⟩ : Document)].map
            (fun c => (fun _ s => [(s.length : Int)] : EmbedFn) config.embeddingsModel c.pageContent)
    ∧ ∀ q, queryVector (fun _ s => [(s.length : Int)])
        ⟨⟨config.embeddingsModel⟩, ⟨[⟨[1], ⟨"a", "a.txt"⟩⟩]⟩, 5, config.ollamaModel, []⟩ q
        = (fun _ s => [(s.length : Int)] : EmbedFn) config.embeddingsModel q :=
  C9_same_embedding_model config (fun _ s => [(s.length : Int)])
    [⟨"a", "a.txt"⟩] none ⟨[⟨[1], ⟨"a", "a.txt"⟩⟩]⟩
    ⟨⟨config.embeddingsModel⟩, ⟨[⟨[1], ⟨"a", "a.txt"⟩⟩]⟩, 5, config.ollamaModel, []⟩
    rfl rfl

/-- Helper: the ranking comparison is transitive. -/
theorem distLE_trans (a b c : Nat × Document) (hab : distLE a b = true)
    (hbc : distLE b c = true) : distLE a c = true := by
  simp only [distLE, Nat.ble_eq] at *
  omega

/-- Helper: the ranking comparison is total. -/
theorem distLE_total (a b : Nat × Document) : (distLE a b || distLE b a) = true := by
  simp only [distLE, Bool.or_eq_true, Nat.ble_eq]
  omega

/-- C5. A chain loaded from a persisted index retrieves with the fixed value
k = 5, and retrieval is top-k by ascending vector distance: the retrieved
list has length min 5 n for an index of n entries, its distances are sorted
ascending, it together with the dropped remainder of the ranking is a
permutation of all scored entries, and every retrieved distance is at most
every dropped distance. -/
theorem C5_topK (cfg : Config) (idx : FaissIndex) (chain : RAGChain)
    (h : load_rag_chain cfg (some idx) = Except.ok chain)
    (dist : List Int → List Int → Nat) (embedFn : EmbedFn) (q : String) :
    chain.retrieverK = 5
    ∧ (retrieveWithScores dist embedFn chain q).length = min 5 idx.entries.length
    ∧ List.Sorted (fun a b => a ≤ b)
        ((retrieveWithScores dist embedFn chain q).map Prod.fst)
    ∧ (retrieveWithScores dist embedFn chain q
        ++ (rankedEntries dist embedFn chain q).drop 5).Perm
        (scoredEntries dist embedFn chain q)
    ∧ ∀ x ∈ retrieveWithScores dist embedFn chain q,
        ∀ y ∈ (rankedEntries dist embedFn chain q).drop 5, x.1 ≤ y.1 := by
  have hchain : chain = ⟨⟨cfg.embeddingsModel⟩, idx, 5, cfg.ollamaModel, []⟩ := by
    simpa [load_rag_chain] using h.symm
  subst hchain
  have hpair := List.sorted_mergeSort distLE_trans distLE_total
    (scoredEntries dist embedFn ⟨⟨cfg.embeddingsModel⟩, idx, 5, cfg.ollamaModel, []⟩ q)
  refine ⟨rfl, ?_, ?_, ?_, ?_⟩
  · simp [retrieveWithScores, rankedEntries, scoredEntries, List.length_take,
      List.length_mergeSort]
  · have htake : List.Pairwise (fun a b => distLE a b = true)
        (retrieveWithScores dist embedFn ⟨⟨cfg.embeddingsModel⟩, idx, 5, cfg.ollamaModel, []⟩ q) :=
      List.Pairwise.sublist (List.take_sublist 5 _) hpair
    exact List.Pairwise.map Prod.fst
      (fun a b hab => by simpa [distLE, Nat.ble_eq] using hab) htake
  · show ((rankedEntries dist embedFn ⟨⟨cfg.embeddingsModel⟩, idx, 5, cfg.ollamaModel, []⟩ q).take 5
        ++ (rankedEntries dist embedFn ⟨⟨cfg.embeddingsModel⟩, idx, 5, cfg.ollamaModel, []⟩ q).drop 5).Perm
      (scoredEntries dist embedFn ⟨⟨cfg.embeddingsModel⟩, idx, 5, cfg.ollamaModel, []⟩ q)
    rw [List.take_append_drop]
    exact List.mergeSort_perm _ _
  · intro x hx y hy
    have hsplit : List.Pairwise (fun a b => distLE a b = true)
        ((rankedEntries dist embedFn ⟨⟨cfg.embeddingsModel⟩, idx, 5, cfg.ollamaModel, []⟩ q).take 5
          ++ (rankedEntries dist embedFn ⟨⟨cfg.embeddingsModel⟩, idx, 5, cfg.ollamaModel, []⟩ q).drop 5) := by
      rw [List.take_append_drop]
      exact hpair
    have hcross := (List.pairwise_append.mp hsplit).2.2
    have := hcross x hx y hy
    simpa [distLE, Nat.ble_eq] using this

/-- C5, witness. -/
theorem C5_topK_witness :
    (⟨⟨config.embeddingsModel⟩, ⟨[⟨[0], ⟨"a", "a.txt"⟩⟩, ⟨[7], ⟨"b", "b.txt"⟩⟩]⟩, 5,
       config.ollamaModel, []⟩ : RAGChain).retrieverK = 5
    ∧ (retrieveWithScores (fun v w => ((v.headD 0) - (w.headD 0)).natAbs)
        (fun _ s => [(s.length : Int)])
        ⟨⟨config.embeddingsModel⟩, ⟨[⟨[0], ⟨"a", "a.txt"⟩⟩, ⟨[7], ⟨"b", "b.txt"⟩⟩]⟩, 5,
          config.ollamaModel, []⟩ "q").length
      = min 5 (⟨[⟨[0], ⟨"a", "a.txt"⟩⟩, ⟨[7], ⟨"b", "b.txt"⟩⟩]⟩ : FaissIndex).entries.length
    ∧ List.Sorted (fun a b => a ≤ b)
        ((retrieveWithScores (fun v w => ((v.headD 0) - (w.headD 0)).natAbs)
          (fun _ s => [(s.length : Int)])
          ⟨⟨config.embeddingsModel⟩, ⟨[⟨[0], ⟨"a", "a.txt"⟩⟩, ⟨[7], ⟨"b", "b.txt"⟩⟩]⟩, 5,
            config.ollamaModel, []⟩ "q").map Prod.fst)
    ∧ (retrieveWithScores (fun v w => ((v.headD 0) - (w.headD 0)).natAbs)
        (fun _ s => [(s.length : Int)])
        ⟨⟨config.embeddingsModel⟩, ⟨[⟨[0], ⟨"a", "a.txt"⟩⟩, ⟨[7], ⟨"b", "b.txt"⟩⟩]⟩, 5,
          config.ollamaModel, []⟩ "q"
        ++ (rankedEntries (fun v w => ((v.headD 0) - (w.headD 0)).natAbs)
          (fun _ s => [(s.length : Int)])
          ⟨⟨config.embeddingsModel⟩, ⟨[⟨[0], ⟨"a", "a.txt"⟩⟩, ⟨[7], ⟨"b", "b.txt"⟩⟩]⟩, 5,
            config.ollamaModel, []⟩ "q").drop 5).Perm
        (scoredEntries (fun v w => ((v.headD 0) - (w.headD 0)).natAbs)
          (fun _ s => [(s.length : Int)])
          ⟨⟨config.embeddingsModel⟩, ⟨[⟨[0], ⟨"a", "a.txt"⟩⟩, ⟨[7], ⟨"b", "b.txt"⟩⟩]⟩, 5,
            config.ollamaModel, []⟩ "q")
    ∧ ∀ x ∈ retrieveWithScores (fun v w => ((v.headD 0) - (w.headD 0)).natAbs)
        (fun _ s => [(s.length : Int)])
        ⟨⟨config.embeddingsModel⟩, ⟨[⟨[0], ⟨"a", "a.txt"⟩⟩, ⟨[7], ⟨"b", "b.txt"⟩⟩]⟩, 5,
          config.ollamaModel, []⟩ "q",
        ∀ y ∈ (rankedEntries (fun v w => ((v.headD 0) - (w.headD 0)).natAbs)
          (fun _ s => [(s.length : Int)])
          ⟨⟨config.embeddingsModel⟩, ⟨[⟨[0], ⟨"a", "a.txt"⟩⟩, ⟨[7], ⟨"b", "b.txt"⟩⟩]⟩, 5,
            config.ollamaModel, []⟩ "q").drop 5, x.1 ≤ y.1 :=
  C5_topK config ⟨[⟨[0], ⟨"a", "a.txt"⟩⟩, ⟨[7], ⟨"b", "b.txt"⟩⟩]⟩
    ⟨⟨config.embeddingsModel⟩, ⟨[⟨[0], ⟨"a", "a.txt"⟩⟩, ⟨[7], ⟨"b", "b.txt"⟩⟩]⟩, 5,
      config.ollamaModel, []⟩
    rfl (fun v w => ((v.headD 0) - (w.headD 0)).natAbs) (fun _ s => [(s.length : Int)]) "q"

/-- Helper: a DirectoryLoader pass holding a failing file fails as a whole
(default silent_errors=False). -/
theorem directoryLoaderLoad_error_of_mem (results : List (Except String (List Document)))
    (e : String) (he : Except.error e ∈ results) :
    ∃ msg, directoryLoaderLoad results = Except.error msg := by
  induction results with
  | nil => cases he
  | cons r rest ih =>
      rcases r with e2 | ds
      · exact ⟨e2, rfl⟩
      · rw [List.mem_cons] at he
        rcases he with he | he
        · cases he
        · obtain ⟨msg, hmsg⟩ := ih he
          exact ⟨msg, by simp [directoryLoaderLoad, hmsg]⟩

/-- Helper: load_documents propagates a failure inside its txt pass. -/
theorem load_documents_error (pdfR csvR txtR : List (Except String (List Document)))
    (e : String) (he : Except.error e ∈ txtR) :
    ∃ msg, load_documents pdfR csvR txtR = Except.error msg := by
  rcases h1 : directoryLoaderLoad pdfR with e1 | a
  · exact ⟨e1, by simp only [load_documents, h1]; rfl⟩
  · rcases h2 : directoryLoaderLoad csvR with e2 | b
    · exact ⟨e2, by simp only [load_documents, h1, h2]; rfl⟩
    · obtain ⟨msg, h3⟩ := directoryLoaderLoad_error_of_mem txtR e he
      exact ⟨msg, by simp only [load_documents, h1, h2, h3]; rfl⟩

/-- C7, counterexample. The claim says an unreadable file is logged and
skipped on the directory-scan path as well. At the concrete input below —
one loadable txt file followed by one whose loader raises — load_documents
propagates the failure and does not return the loadable file alone, because
src/AutoMentor/core/ingestion/document_loader.py wraps no per-file handling
around its DirectoryLoader passes. -/
theorem C7_counterexample :
    load_documents [] []
        [Except.ok [{ pageContent := "a", source := "a.txt" }], Except.error "unreadable file"]
      = Except.error "unreadable file"
    ∧ load_documents [] []
        [Except.ok [{ pageContent := "a", source := "a.txt" }], Except.error "unreadable file"]
      ≠ Except.ok [{ pageContent := "a", source := "a.txt" }] := by
  refine ⟨rfl, fun hcontra => ?_⟩
  rw [show load_documents [] []
      [Except.ok [{ pageContent := "a", source := "a.txt" }], Except.error "unreadable file"]
    = Except.error "unreadable file" from rfl] at hcontra
  exact Except.noConfusion hcontra

/-- C7, amended. On the upload path a file whose loader raises is skipped
with a warning while the remaining files are gathered and ingested: a batch
of one failing and one loadable supported file still succeeds, its index
written from the loadable documents alone. On the directory-scan path there
is no per-file handling: a failing file inside a DirectoryLoader pass makes
load_documents fail as a whole. -/
theorem C7_per_file_failure (cfg : Config) (embedFn : EmbedFn)
    (loadFile : UploadFile → Except String (List Document)) (st : ServerState)
    (f1 f2 : UploadFile) (e : String) (ds : List Document)
    (pdfR csvR txtR : List (Except String (List Document))) (e2 : String)
    (hs1 : isSupportedUpload f1 = true) (hs2 : isSupportedUpload f2 = true)
    (hfail : loadFile f1 = Except.error e) (hok : loadFile f2 = Except.ok ds)
    (hne : ds ≠ []) (he : Except.error e2 ∈ txtR) :
    gatherDocuments loadFile [f1, f2] = ds
    ∧ (∃ msg, ingest_documents cfg embedFn loadFile st [f1, f2]
        = (IngestOutcome.ok msg [f1.filename, f2.filename]
            (split_text_into_chunks ds cfg.chunkSize cfg.chunkOverlap).length,
           ⟨some (FaissIndex.fromDocuments embedFn ⟨cfg.embeddingsModel⟩
              (split_text_into_chunks ds cfg.chunkSize cfg.chunkOverlap)),
            some ⟨⟨cfg.embeddingsModel⟩,
              FaissIndex.fromDocuments embedFn ⟨cfg.embeddingsModel⟩
                (split_text_into_chunks ds cfg.chunkSize cfg.chunkOverlap),
              5, cfg.ollamaModel, []⟩⟩))
    ∧ ∃ msg, load_documents pdfR csvR txtR = Except.error msg := by
  have hg : gatherDocuments loadFile [f1, f2] = ds := by
    simp [gatherDocuments, hfail, hok]
  refine ⟨hg, ?_, load_documents_error pdfR csvR txtR e2 he⟩
  have hfind : (([f1, f2] : List UploadFile).find? fun f => !isSupportedUpload f) = none := by
    simp [List.find?_cons, hs1, hs2]
  have hdse : ds.isEmpty = false := by
    rcases ds with _ | ⟨x, xs⟩
    · exact absurd rfl hne
    · rfl
  refine ⟨"Successfully ingested " ++ toString (([f1, f2] : List UploadFile)).length
    ++ " file(s) with "
    ++ toString (split_text_into_chunks ds cfg.chunkSize cfg.chunkOverlap).length
    ++ " chunks.", ?_⟩
  simp only [ingest_documents, List.isEmpty_cons, Bool.false_eq_true, if_false, hfind, hg,
    hdse, create_and_save_embeddings, load_rag_chain, List.map_cons, List.map_nil,
    List.length_cons, List.length_nil]

/-- C7, witness for the amended theorem. -/
theorem C7_per_file_failure_witness :
    gatherDocuments
        (fun f => if f.filename = "bad.txt" then Except.error "unreadable"
          else Except.ok [{ pageContent := f.content, source := f.filename }])
        [{ filename := "bad.txt", content := "x" }, { filename := "good.txt", content := "tire" }]
      = [{ pageContent := "tire", source := "good.txt" }]
    ∧ (∃ msg, ingest_documents config (fun _ s => [(s.length : Int)])
        (fun f => if f.filename = "bad.txt" then Except.error "unreadable"
          else Except.ok [{ pageContent := f.content, source := f.filename }])
        { indexFiles := none, rag_chain := none }
        [{ filename := "bad.txt", content := "x" }, { filename := "good.txt", content := "tire" }]
        = (IngestOutcome.ok msg ["bad.txt", "good.txt"]
            (split_text_into_chunks [{ pageContent := "tire", source := "good.txt" }]
              config.chunkSize config.chunkOverlap).length,
           ⟨some (FaissIndex.fromDocuments (fun _ s => [(s.length : Int)])
              ⟨config.embeddingsModel⟩
              (split_text_into_chunks [{ pageContent := "tire", source := "good.txt" }]
                config.chunkSize config.chunkOverlap)),
            some ⟨⟨config.embeddingsModel⟩,
              FaissIndex.fromDocuments (fun _ s => [(s.length : Int)])
                ⟨config.embeddingsModel⟩
                (split_text_into_chunks [{ pageContent := "tire", source := "good.txt" }]
                  config.chunkSize config.chunkOverlap),
              5, config.ollamaModel, []⟩⟩))
    ∧ ∃ msg, load_documents [] [] [Except.error "unreadable"] = Except.error msg :=
  C7_per_file_failure config (fun _ s => [(s.length : Int)])
    (fun f => if f.filename = "bad.txt" then Except.error "unreadable"
      else Except.ok [{ pageContent := f.content, source := f.filename }])
    { indexFiles := none, rag_chain := none }
    { filename := "bad.txt", content := "x" } { filename := "good.txt", content := "tire" }
    "unreadable" [{ pageContent := "tire", source := "good.txt" }]
    [] [] [Except.error "unreadable"] "unreadable"
    (by decide) (by decide) rfl rfl (by decide) (List.Mem.head _)

/-- Helper: the /query handler never touches the persisted index files. -/
theorem query_automotive_preserves_index (dist : List Int → List Int → Nat)
    (embedFn : EmbedFn) (llm : LlmFn) (st : ServerState) (q : String) :
    (query_automotive dist embedFn llm st q).2.indexFiles = st.indexFiles := by
  rcases h : st.rag_chain with _ | chain
  · simp [query_automotive, h]
  · rcases hinv : RAGChain.invoke dist embedFn llm chain q with e | p
    · simp [query_automotive, h, hinv]
    · simp [query_automotive, h, hinv]

/-- C10. The /query and /health endpoints never modify the persisted index:
after any sequence of query and health-check requests with no interleaved
ingestion, the index files at the configured path are exactly as before
(of the three endpoints only /ingest reaches a state whose index component
differs). Moreover a query leaves the loaded index contents alone: whatever
chain the global variable holds afterwards carries the same vector store as
before the request. -/
theorem C10_readonly_frame (cfg : Config) (dist : List Int → List Int → Nat)
    (embedFn : EmbedFn) (llm : LlmFn)
    (loadFile : UploadFile → Except String (List Document)) (st : ServerState)
    (reqs : List ApiRequest) (h : ∀ r ∈ reqs, isReadOnly r = true) :
    (runRequests cfg dist embedFn llm loadFile st reqs).indexFiles = st.indexFiles
    ∧ ∀ q chain chain2, st.rag_chain = some chain →
        (query_automotive dist embedFn llm st q).2.rag_chain = some chain2 →
        chain2.vector_store = chain.vector_store := by
  constructor
  · induction reqs generalizing st with
    | nil => rfl
    | cons r rs ih =>
        have hr := h r (by simp)
        have hrs : ∀ x ∈ rs, isReadOnly x = true := fun x hx => h x (by simp [hx])
        rw [runRequests, ih _ hrs]
        rcases r with q | _ | files
        · exact query_automotive_preserves_index dist embedFn llm st q
        · rfl
        · simp [isReadOnly] at hr
  · intro q chain chain2 hc hc2
    rcases hl : llm chain.llmModel (buildPrompt (retrieve dist embedFn chain q) q) with e | a
    · simp only [query_automotive, hc, RAGChain.invoke, hl] at hc2
      cases hc2
      rfl
    · simp only [query_automotive, hc, RAGChain.invoke, hl] at hc2
      cases hc2
      rfl

/-- C10, witness. -/
theorem C10_readonly_frame_witness :
    (runRequests config (fun _ _ => 0) (fun _ s => [(s.length : Int)])
        (fun _ _ => Except.ok "ans") (fun _ => Except.ok [])
        ⟨some ⟨[]⟩, some ⟨⟨"m"⟩, ⟨[]⟩, 5, "llama", []⟩⟩
        [ApiRequest.queryReq "hi", ApiRequest.healthReq]).indexFiles
      = (⟨some ⟨[]⟩, some ⟨⟨"m"⟩, ⟨[]⟩, 5, "llama", []⟩⟩ : ServerState).indexFiles
    ∧ ∀ q chain chain2,
        (⟨some ⟨[]⟩, some ⟨⟨"m"⟩, ⟨[]⟩, 5, "llama", []⟩⟩ : ServerState).rag_chain = some chain →
        (query_automotive (fun _ _ => 0) (fun _ s => [(s.length : Int)])
          (fun _ _ => Except.ok "ans")
          ⟨some ⟨[]⟩, some ⟨⟨"m"⟩, ⟨[]⟩, 5, "llama", []⟩⟩ q).2.rag_chain = some chain2 →
        chain2.vector_store = chain.vector_store :=
  C10_readonly_frame config (fun _ _ => 0) (fun _ s => [(s.length : Int)])
    (fun _ _ => Except.ok "ans") (fun _ => Except.ok [])
    ⟨some ⟨[]⟩, some ⟨⟨"m"⟩, ⟨[]⟩, 5, "llama", []⟩⟩
    [ApiRequest.queryReq "hi", ApiRequest.healthReq] (by decide)

end AutoMentor
